import Mathlib

/-!
# up_unblock_task (os/arch/arm/src/armv7-m/up_unblocktask.c)

A shallow embedding of the ARMv7-M unblock entry point of the TizenRT
scheduler.  The function is a straight-line dispatcher: it validates the
state of the task, moves it from its blocked list to the ready-to-run list
and, when the head of the ready-to-run list changed, performs the context
switch in one of two ways depending on `current_regs`.

Everything the function does is recorded twice:

* in the state (`Kernel`): the fields and globals it stores to, and
* in `Kernel.trace`: the ordered list of collaborator calls and stores, so
  that "is called", "exactly once" and "before" are statements about a list.

The preprocessor symbols and the constants of headers that are not part of
the translated file are fields of `Config`; the scheduler list operations
(`this_task`, `sched_removeblocked`, `sched_addreadytorun`) are fields of
`Sched`, over an arbitrary scheduler state `S`.
-/

namespace TizenRT

/-! ## Data model -/

/-- A task is identified by the address of its `struct tcb_s`. -/
abbrev TaskId := Nat

/-- Contents of a register save area (`uint32_t regs[XCPTCONTEXT_REGS]`). -/
abbrev RegFile := List Nat

/-- Address of a register save area. -/
inductive RegsRef where
  /-- The array `t->xcp.regs`. -/
  | xcp (t : TaskId)
  /-- A register frame pushed by interrupt entry (what `current_regs`
  designates while a handler runs). -/
  | frame (n : Nat)
deriving DecidableEq, Repr

/-- Address handed to `up_mpu_set_register`. -/
inductive MpuRef where
  /-- The address `&t->mpu_regs[i]`. -/
  | mpu_regs (t : TaskId) (i : Nat)
  /-- The array `t->stack_mpu_regs`. -/
  | stack_mpu_regs (t : TaskId)
deriving DecidableEq, Repr

/-- One observable action of `up_unblock_task`: a call of a collaborator or a
store to a TCB field or global. -/
inductive Event where
  | sched_removeblocked (t : TaskId)
  | sched_addreadytorun (t : TaskId)
  | up_savestate (regs : RegsRef)
  | up_restorestate (regs : RegsRef)
  | up_switchcontext (saveregs restoreregs : RegsRef)
  | up_mpu_set_register (m : MpuRef)
  | save_task_scheduling_status (t : TaskId)
  /-- The store `t->timeslice = v`. -/
  | store_timeslice (t : TaskId) (v : Int)
  /-- The store `*g_umm_app_id = v`. -/
  | store_app_id (v : Nat)
  /-- The store `t->is_active = true`. -/
  | store_is_active (t : TaskId)
deriving DecidableEq, Repr

/-- The fields of `struct tcb_s` that `up_unblock_task` reads or writes
itself.  (`task_state` and the list linkage belong to the scheduler lists,
see `Sched`; `xcp.regs`, `mpu_regs` and `stack_mpu_regs` are only passed by
address, see `RegsRef` and `MpuRef`.) -/
structure tcb_s where
  flags : Nat
  timeslice : Int
  app_id : Nat
  is_active : Bool
deriving DecidableEq, Repr

/-- Preprocessor configuration and header constants used by the function. -/
structure Config where
  FIRST_BLOCKED_STATE : Nat
  LAST_BLOCKED_STATE : Nat
  CONFIG_RR_INTERVAL : Int
  /-- The tick conversion of clock.h. -/
  MSEC2TICK : Int → Int
  CONFIG_TASK_SCHED_HISTORY : Bool
  CONFIG_ARMV7M_MPU : Bool
  CONFIG_APP_BINARY_SEPARATION : Bool
  CONFIG_MPU_STACK_OVERFLOW_PROTECTION : Bool
  CONFIG_SUPPORT_COMMON_BINARY : Bool
  CONFIG_TASK_MONITOR : Bool
  MPU_NUM_REGIONS : Nat
  TCB_FLAG_TTYPE_MASK : Nat
  TCB_FLAG_TTYPE_KERNEL : Nat

/-- The scheduler list operations of sched/sched.h, over a scheduler state
`S` (the task lists together with the `task_state` field of every TCB).
They are total and touch nothing but `S`. -/
structure Sched (S : Type) where
  /-- The TCB at the head of the ready-to-run list, `this_task()`. -/
  this_task : S → TaskId
  /-- The field `t->task_state`. -/
  task_state : S → TaskId → Nat
  sched_removeblocked : TaskId → S → S
  /-- Returns the new lists and whether the head of the ready-to-run list
  changed. -/
  sched_addreadytorun : TaskId → S → S × Bool

/-- Everything `up_unblock_task` can read or write. -/
structure Kernel (S : Type) where
  sched : S
  tcbs : TaskId → tcb_s
  /-- The global `current_regs`; `none` is the null pointer (not in a handler). -/
  current_regs : Option RegsRef
  /-- The global `g_umm_app_id`; `none` is the null pointer, `some v` a pointer to a
  word that holds `v`. -/
  g_umm_app_id : Option Nat
  /-- Contents of the register save areas. -/
  regmem : RegsRef → RegFile
  /-- The live CPU registers. -/
  cpu : RegFile
  trace : List Event

/-- Result of a call: a normal return, or the halt in `ASSERT`. -/
inductive Outcome (S : Type) where
  | ok (k : Kernel S)
  | assert_failed (k : Kernel S)

/-- The state in which the call ended. -/
def Outcome.state {S : Type} : Outcome S → Kernel S
  | .ok k => k
  | .assert_failed k => k

/-- Whether the call ended in the failed `ASSERT`. -/
def Outcome.failed {S : Type} : Outcome S → Bool
  | .ok _ => false
  | .assert_failed _ => true

/-! ## Collaborators -/

/-- Appends one action to the trace. -/
def emit {S : Type} (e : Event) (k : Kernel S) : Kernel S :=
  { k with trace := k.trace ++ [e] }

/-- The call `sched_removeblocked(tcb)`. -/
def sched_removeblocked {S : Type} (sc : Sched S) (tcb : TaskId) (k : Kernel S) : Kernel S :=
  emit (.sched_removeblocked tcb) { k with sched := sc.sched_removeblocked tcb k.sched }

/-- The call `sched_addreadytorun(tcb)` with its return value. -/
def sched_addreadytorun {S : Type} (sc : Sched S) (tcb : TaskId) (k : Kernel S) : Kernel S × Bool :=
  (emit (.sched_addreadytorun tcb)
      { k with sched := (sc.sched_addreadytorun tcb k.sched).1 },
    (sc.sched_addreadytorun tcb k.sched).2)

/-- The register memory after the save area `src` has been copied into the
save area `dst`. -/
def copy_regs (mem : RegsRef → RegFile) (dst src : RegsRef) : RegsRef → RegFile :=
  fun r => if r = dst then mem src else mem r

/-- Modelled from the spec: up_savestate, defined in up_internal.h which is
not among the translated sources.  §4.4: "the previously running task's
register file is captured into its own savedRegisters using the
already-saved snapshot held by the execution-context tracker (not a fresh
capture)"; the comment at the call site (lines 141-143) reads "Just copy the
current_regs into the OLD rtcb".  The snapshot `current_regs` designates is
copied into `regs`. -/
def up_savestate {S : Type} (regs : RegsRef) (k : Kernel S) : Kernel S :=
  emit (.up_savestate regs)
    (match k.current_regs with
     | some snapshot => { k with regmem := copy_regs k.regmem regs snapshot }
     | none => k)

/-- Modelled from the spec: up_restorestate, defined in up_internal.h which
is not among the translated sources.  §3: while in a handler the dispatcher
"must not perform a live register switch; it must instead mutate the
interrupt's saved snapshot"; §4.4: "Control returns to the interrupt return
sequence, which restores the new task's register file"; §4.5: "The
dispatcher never sets it" (the execution-context tracker).  The snapshot
`current_regs` designates is overwritten with the contents of `regs`, and
`current_regs` itself is left alone. -/
def up_restorestate {S : Type} (regs : RegsRef) (k : Kernel S) : Kernel S :=
  emit (.up_restorestate regs)
    (match k.current_regs with
     | some snapshot => { k with regmem := copy_regs k.regmem snapshot regs }
     | none => k)

/-- Modelled from the spec: up_switchcontext, an assembly routine that is
not among the translated sources.  §4.4: "capture the current CPU registers
into the previously running task's savedRegisters, then load the new head's
savedRegisters into the CPU". -/
def up_switchcontext {S : Type} (saveregs restoreregs : RegsRef) (k : Kernel S) : Kernel S :=
  emit (.up_switchcontext saveregs restoreregs)
    { k with regmem := Function.update k.regmem saveregs k.cpu,
             cpu := if restoreregs = saveregs then k.cpu else k.regmem restoreregs }

/-- The call `up_mpu_set_register(m)`: a hardware write, visible only in the
trace. -/
def up_mpu_set_register {S : Type} (m : MpuRef) (k : Kernel S) : Kernel S :=
  emit (.up_mpu_set_register m) k

/-- The call `save_task_scheduling_status(t)`: a diagnostic sink, visible
only in the trace. -/
def save_task_scheduling_status {S : Type} (t : TaskId) (k : Kernel S) : Kernel S :=
  emit (.save_task_scheduling_status t) k

/-! ## The function -/

/-- The store `tcb->timeslice = v`. -/
def store_timeslice {S : Type} (tcb : TaskId) (v : Int) (k : Kernel S) : Kernel S :=
  emit (.store_timeslice tcb v)
    { k with tcbs := Function.update k.tcbs tcb { k.tcbs tcb with timeslice := v } }

/-- The store `*g_umm_app_id = v` (the pointer is known to be non-null). -/
def store_app_id {S : Type} (v : Nat) (k : Kernel S) : Kernel S :=
  emit (.store_app_id v) { k with g_umm_app_id := some v }

/-- The store `rtcb->is_active = true`. -/
def store_is_active {S : Type} (rtcb : TaskId) (k : Kernel S) : Kernel S :=
  emit (.store_is_active rtcb)
    { k with tcbs := Function.update k.tcbs rtcb { k.tcbs rtcb with is_active := true } }

/-- Lines 163-165:
`for (int i = 0; i < 3 * MPU_NUM_REGIONS; i += 3) up_mpu_set_register(&rtcb->mpu_regs[i]);`
entered with the loop variable equal to `i`.  `MPU_NUM_REGIONS` is the number
of regions of the MPU, so `i` stays far inside the range of `int`. -/
def mpu_regs_loop {S : Type} (cfg : Config) (rtcb : TaskId) (i : Nat) (k : Kernel S) : Kernel S :=
  if i < 3 * cfg.MPU_NUM_REGIONS then
    mpu_regs_loop cfg rtcb (i + 3) (up_mpu_set_register (.mpu_regs rtcb i) k)
  else
    k
termination_by 3 * cfg.MPU_NUM_REGIONS - i
decreasing_by omega

/-- Lines 159-171: the `CONFIG_ARMV7M_MPU` block of the interrupt path. -/
def restore_mpu {S : Type} (cfg : Config) (rtcb : TaskId) (k : Kernel S) : Kernel S :=
  if cfg.CONFIG_ARMV7M_MPU then
    let k1 :=
      if (k.tcbs rtcb).flags &&& cfg.TCB_FLAG_TTYPE_MASK ≠ cfg.TCB_FLAG_TTYPE_KERNEL then
        if cfg.CONFIG_APP_BINARY_SEPARATION then mpu_regs_loop cfg rtcb 0 k else k
      else k
    if cfg.CONFIG_MPU_STACK_OVERFLOW_PROTECTION then
      up_mpu_set_register (.stack_mpu_regs rtcb) k1
    else k1
  else k

/-- Lines 173-177: the `CONFIG_SUPPORT_COMMON_BINARY` block. -/
def update_app_id {S : Type} (cfg : Config) (rtcb : TaskId) (k : Kernel S) : Kernel S :=
  if cfg.CONFIG_SUPPORT_COMMON_BINARY then
    if k.g_umm_app_id.isSome then store_app_id (k.tcbs rtcb).app_id k else k
  else k

/-- Lines 178-181: the `CONFIG_TASK_MONITOR` block. -/
def update_monitor {S : Type} (cfg : Config) (rtcb : TaskId) (k : Kernel S) : Kernel S :=
  if cfg.CONFIG_TASK_MONITOR then store_is_active rtcb k else k

/-- Lines 153-156 and 196-199: the `CONFIG_TASK_SCHED_HISTORY` block. -/
def record_history {S : Type} (cfg : Config) (t : TaskId) (k : Kernel S) : Kernel S :=
  if cfg.CONFIG_TASK_SCHED_HISTORY then save_task_scheduling_status t k else k

/-- Lines 125-127: the `CONFIG_RR_INTERVAL > 0` block. -/
def reset_timeslice {S : Type} (cfg : Config) (tcb : TaskId) (k : Kernel S) : Kernel S :=
  if 0 < cfg.CONFIG_RR_INTERVAL then
    store_timeslice tcb (cfg.MSEC2TICK cfg.CONFIG_RR_INTERVAL) k
  else k

/-- The function `up_unblock_task(tcb)`, lines 109-209. -/
def up_unblock_task {S : Type} (cfg : Config) (sc : Sched S) (tcb : TaskId) (k : Kernel S) :
    Outcome S :=
  let rtcb := sc.this_task k.sched
  if cfg.FIRST_BLOCKED_STATE ≤ sc.task_state k.sched tcb
      ∧ sc.task_state k.sched tcb ≤ cfg.LAST_BLOCKED_STATE then
    let k := sched_removeblocked sc tcb k
    let k := reset_timeslice cfg tcb k
    let r := sched_addreadytorun sc tcb k
    let k := r.1
    if r.2 then
      if k.current_regs.isSome then
        let k := up_savestate (.xcp rtcb) k
        let rtcb := sc.this_task k.sched
        let k := record_history cfg rtcb k
        let k := restore_mpu cfg rtcb k
        let k := update_app_id cfg rtcb k
        let k := update_monitor cfg rtcb k
        .ok (up_restorestate (.xcp rtcb) k)
      else
        let nexttcb := sc.this_task k.sched
        let k := record_history cfg nexttcb k
        .ok (up_switchcontext (.xcp rtcb) (.xcp nexttcb) k)
    else
      .ok k
  else
    .assert_failed k

/-! ## Vocabulary of the statements -/

/-- The condition of the `ASSERT` at line 115. -/
def in_blocked_range {S : Type} (cfg : Config) (sc : Sched S) (tcb : TaskId) (k : Kernel S) :
    Prop :=
  cfg.FIRST_BLOCKED_STATE ≤ sc.task_state k.sched tcb
    ∧ sc.task_state k.sched tcb ≤ cfg.LAST_BLOCKED_STATE

instance {S : Type} (cfg : Config) (sc : Sched S) (tcb : TaskId) (k : Kernel S) :
    Decidable (in_blocked_range cfg sc tcb k) :=
  inferInstanceAs (Decidable (_ ∧ _))

/-- The task `this_task()` returns at entry (the `rtcb` of line 111). -/
def old_task {S : Type} (sc : Sched S) (k : Kernel S) : TaskId :=
  sc.this_task k.sched

/-- The scheduler lists after lines 119 and 133. -/
def lists_after {S : Type} (sc : Sched S) (tcb : TaskId) (k : Kernel S) : S :=
  (sc.sched_addreadytorun tcb (sc.sched_removeblocked tcb k.sched)).1

/-- The value `sched_addreadytorun(tcb)` returns at line 133. -/
def head_changed {S : Type} (sc : Sched S) (tcb : TaskId) (k : Kernel S) : Bool :=
  (sc.sched_addreadytorun tcb (sc.sched_removeblocked tcb k.sched)).2

/-- The task `this_task()` returns after the insertion (lines 151 and 195). -/
def new_head {S : Type} (sc : Sched S) (tcb : TaskId) (k : Kernel S) : TaskId :=
  sc.this_task (lists_after sc tcb k)

/-- The test of line 161 fails: `(flags & TCB_FLAG_TTYPE_MASK) == TCB_FLAG_TTYPE_KERNEL`. -/
def kernel_kind (cfg : Config) (t : tcb_s) : Prop :=
  t.flags &&& cfg.TCB_FLAG_TTYPE_MASK = cfg.TCB_FLAG_TTYPE_KERNEL

instance (cfg : Config) (t : tcb_s) : Decidable (kernel_kind cfg t) :=
  inferInstanceAs (Decidable (_ = _))

/-- A register transfer: `up_savestate`, `up_restorestate` or `up_switchcontext`. -/
def Event.is_switch_action : Event → Bool
  | .up_savestate _ => true
  | .up_restorestate _ => true
  | .up_switchcontext _ _ => true
  | _ => false

/-- Any call of `up_mpu_set_register`. -/
def Event.is_mpu : Event → Bool
  | .up_mpu_set_register _ => true
  | _ => false

/-- A call of `up_mpu_set_register` on an entry of some `mpu_regs`. -/
def Event.is_region_call : Event → Bool
  | .up_mpu_set_register (.mpu_regs _ _) => true
  | _ => false

/-- A call of `up_mpu_set_register` on some `stack_mpu_regs`. -/
def Event.is_stack_call : Event → Bool
  | .up_mpu_set_register (.stack_mpu_regs _) => true
  | _ => false

/-- A store through `g_umm_app_id` or to an `is_active` flag. -/
def Event.is_bookkeeping_store : Event → Bool
  | .store_app_id _ => true
  | .store_is_active _ => true
  | _ => false

/-- The calls `up_mpu_set_register(&t->mpu_regs[3*j])` for `j = 0, ..., n-1`,
in ascending order. -/
def region_calls (t : TaskId) (n : Nat) : List Event :=
  (List.range n).map (fun j => Event.up_mpu_set_register (.mpu_regs t (3 * j)))

/-- Actions of lines 119-133, up to the return of `sched_addreadytorun`. -/
def entry_events (cfg : Config) (tcb : TaskId) : List Event :=
  [Event.sched_removeblocked tcb]
    ++ (if 0 < cfg.CONFIG_RR_INTERVAL then
          [Event.store_timeslice tcb (cfg.MSEC2TICK cfg.CONFIG_RR_INTERVAL)] else [])
    ++ [Event.sched_addreadytorun tcb]

/-- Actions of the `CONFIG_TASK_SCHED_HISTORY` block. -/
def history_events (cfg : Config) (t : TaskId) : List Event :=
  if cfg.CONFIG_TASK_SCHED_HISTORY then [Event.save_task_scheduling_status t] else []

/-- Actions of the `CONFIG_ARMV7M_MPU` block for a head with the given TCB. -/
def mpu_events (cfg : Config) (t : TaskId) (b : tcb_s) : List Event :=
  if cfg.CONFIG_ARMV7M_MPU then
    (if ¬ kernel_kind cfg b ∧ cfg.CONFIG_APP_BINARY_SEPARATION = true then
        region_calls t cfg.MPU_NUM_REGIONS else [])
      ++ (if cfg.CONFIG_MPU_STACK_OVERFLOW_PROTECTION then
            [Event.up_mpu_set_register (.stack_mpu_regs t)] else [])
  else []

/-- Actions of the `CONFIG_SUPPORT_COMMON_BINARY` and `CONFIG_TASK_MONITOR`
blocks. -/
def bookkeeping_events (cfg : Config) (t : TaskId) (b : tcb_s) (store : Option Nat) :
    List Event :=
  (if cfg.CONFIG_SUPPORT_COMMON_BINARY = true ∧ store.isSome = true then
      [Event.store_app_id b.app_id] else [])
    ++ (if cfg.CONFIG_TASK_MONITOR then [Event.store_is_active t] else [])

/-- The TCB table after the `CONFIG_RR_INTERVAL > 0` block. -/
def tcbs_after (cfg : Config) (tcb : TaskId) (tcbs : TaskId → tcb_s) : TaskId → tcb_s :=
  if 0 < cfg.CONFIG_RR_INTERVAL then
    Function.update tcbs tcb { tcbs tcb with timeslice := cfg.MSEC2TICK cfg.CONFIG_RR_INTERVAL }
  else tcbs

/-- The state in which the call returns when the head did not change. -/
def after_no_switch {S : Type} (cfg : Config) (sc : Sched S) (tcb : TaskId) (k : Kernel S) :
    Kernel S :=
  { k with
    sched := lists_after sc tcb k
    tcbs := tcbs_after cfg tcb k.tcbs
    trace := k.trace ++ entry_events cfg tcb }

/-- The state in which the call returns after a switch outside a handler. -/
def after_thread_switch {S : Type} (cfg : Config) (sc : Sched S) (tcb : TaskId)
    (k : Kernel S) : Kernel S :=
  { k with
    sched := lists_after sc tcb k
    tcbs := tcbs_after cfg tcb k.tcbs
    regmem := Function.update k.regmem (.xcp (old_task sc k)) k.cpu
    cpu :=
      if RegsRef.xcp (new_head sc tcb k) = RegsRef.xcp (old_task sc k) then k.cpu
      else k.regmem (.xcp (new_head sc tcb k))
    trace := k.trace ++ (entry_events cfg tcb ++ (history_events cfg (new_head sc tcb k)
      ++ [Event.up_switchcontext (.xcp (old_task sc k)) (.xcp (new_head sc tcb k))])) }

/-- The state in which the call returns after a switch inside a handler whose
`current_regs` designates `snapshot`. -/
def after_irq_switch {S : Type} (cfg : Config) (sc : Sched S) (tcb : TaskId)
    (snapshot : RegsRef) (k : Kernel S) : Kernel S :=
  { sched := lists_after sc tcb k
    tcbs :=
      if cfg.CONFIG_TASK_MONITOR then
        Function.update (tcbs_after cfg tcb k.tcbs) (new_head sc tcb k)
          { tcbs_after cfg tcb k.tcbs (new_head sc tcb k) with is_active := true }
      else tcbs_after cfg tcb k.tcbs
    current_regs := some snapshot
    g_umm_app_id :=
      if cfg.CONFIG_SUPPORT_COMMON_BINARY = true ∧ k.g_umm_app_id.isSome = true then
        some (k.tcbs (new_head sc tcb k)).app_id
      else k.g_umm_app_id
    regmem :=
      copy_regs (copy_regs k.regmem (.xcp (old_task sc k)) snapshot) snapshot
        (.xcp (new_head sc tcb k))
    cpu := k.cpu
    trace := k.trace ++ (entry_events cfg tcb
      ++ ([Event.up_savestate (.xcp (old_task sc k))]
      ++ (history_events cfg (new_head sc tcb k)
      ++ (mpu_events cfg (new_head sc tcb k) (k.tcbs (new_head sc tcb k))
      ++ (bookkeeping_events cfg (new_head sc tcb k) (k.tcbs (new_head sc tcb k))
            k.g_umm_app_id
      ++ [Event.up_restorestate (.xcp (new_head sc tcb k))]))))) }

/-! ## A concrete scheduler and concrete inputs -/

/-- Modelled from the spec: the task lists kept by the sched/ directory, which
is not among the translated sources.  §3: "The ready-to-run queue is ordered
by priority descending; among equal priorities, insertion order is
preserved"; §4.2: "One queue per blocked reason". -/
structure TaskLists where
  readytorun : List TaskId
  blocked : Nat → List TaskId
  sched_priority : TaskId → Nat
  task_state : TaskId → Nat

/-- Modelled from the spec: the priority insertion behind sched_addreadytorun.
§4.3: "insertion point is the first position whose occupant has priority
strictly lower than the inserting TCB, preserving FIFO among equals". -/
def insert_prioritized (prio : TaskId → Nat) (t : TaskId) : List TaskId → List TaskId
  | [] => [t]
  | h :: rest =>
    if prio h < prio t then t :: h :: rest else h :: insert_prioritized prio t rest

/-- Modelled from the spec: this_task, sched_removeblocked and
sched_addreadytorun of sched/.  §2: the head of the ready-to-run queue "is,
by definition, the task the CPU should be executing"; §4.2: remove-by-reference
from the queue of the blocked state; §4.3: priority insertion that "Returns to
the dispatcher a boolean: did the head change".  State 0 marks a TCB that is
in no list, 2 a ready one. -/
def list_sched : Sched TaskLists where
  this_task s := s.readytorun.headD 0
  task_state s t := s.task_state t
  sched_removeblocked t s :=
    { s with
      blocked := Function.update s.blocked (s.task_state t)
        ((s.blocked (s.task_state t)).erase t)
      task_state := Function.update s.task_state t 0 }
  sched_addreadytorun t s :=
    ({ s with
       readytorun := insert_prioritized s.sched_priority t s.readytorun
       task_state := Function.update s.task_state t 2 },
     (insert_prioritized s.sched_priority t s.readytorun).head? != s.readytorun.head?)

/-- A configuration with every option on: blocked states 4..9, a 100 ms
round-robin interval on a 10 ms tick, 8 MPU regions, task type in the two low
bits of `flags` with 2 for kernel threads. -/
def demo_cfg : Config where
  FIRST_BLOCKED_STATE := 4
  LAST_BLOCKED_STATE := 9
  CONFIG_RR_INTERVAL := 100
  MSEC2TICK ms := (ms + 5) / 10
  CONFIG_TASK_SCHED_HISTORY := true
  CONFIG_ARMV7M_MPU := true
  CONFIG_APP_BINARY_SEPARATION := true
  CONFIG_MPU_STACK_OVERFLOW_PROTECTION := true
  CONFIG_SUPPORT_COMMON_BINARY := true
  CONFIG_TASK_MONITOR := true
  MPU_NUM_REGIONS := 8
  TCB_FLAG_TTYPE_MASK := 3
  TCB_FLAG_TTYPE_KERNEL := 2

/-- The same configuration built without `CONFIG_APP_BINARY_SEPARATION`. -/
def demo_cfg_flat : Config :=
  { demo_cfg with CONFIG_APP_BINARY_SEPARATION := false }

/-- Task lists of the scenario of §8: task 1 (priority 10) runs, task 3
(priority 10) and the idle task 0 are ready; task 2 (priority 5), task 4
(priority 20) and the kernel thread 5 (priority 30) wait in blocked state 5. -/
def demo_lists : TaskLists where
  readytorun := [1, 3, 0]
  blocked st := if st = 5 then [2, 4, 5] else []
  sched_priority t :=
    if t = 1 then 10 else if t = 2 then 5 else if t = 3 then 10 else if t = 4 then 20
    else if t = 5 then 30 else 0
  task_state t :=
    if t = 1 then 3 else if t = 3 then 2 else if t = 0 then 2
    else if t = 2 ∨ t = 4 ∨ t = 5 then 5 else 0

/-- The TCB table of the scenario: tasks 0 and 5 are kernel threads, the
others application tasks; task `t` belongs to application `100 + t`. -/
def demo_tcbs (t : TaskId) : tcb_s :=
  { flags := if t = 0 ∨ t = 5 then 2 else 0
    timeslice := 3
    app_id := 100 + t
    is_active := false }

/-- The scenario entered from an interrupt handler whose entry code saved the
registers of task 1 in frame 0. -/
def demo_irq : Kernel TaskLists where
  sched := demo_lists
  tcbs := demo_tcbs
  current_regs := some (.frame 0)
  g_umm_app_id := some 101
  regmem r := if r = .frame 0 then [1, 2, 3] else if r = .frame 1 then [4, 5, 6] else []
  cpu := [7, 8, 9]
  trace := []

/-- The scenario entered from ordinary thread execution. -/
def demo_thread : Kernel TaskLists :=
  { demo_irq with current_regs := none }

/-! ## Lemmas on the steps -/

theorem mpu_regs_loop_from {S : Type} (cfg : Config) (rtcb : TaskId) (n : Nat) :
    ∀ (j : Nat) (k : Kernel S), j + n = cfg.MPU_NUM_REGIONS →
      mpu_regs_loop cfg rtcb (3 * j) k
        = { k with
            trace := k.trace ++ (List.range n).map
              (fun m => Event.up_mpu_set_register (.mpu_regs rtcb (3 * (j + m)))) } := by
  induction n with
  | zero =>
    intro j k h
    rw [mpu_regs_loop]
    have : ¬ 3 * j < 3 * cfg.MPU_NUM_REGIONS := by omega
    simp [this]
  | succ n ih =>
    intro j k h
    rw [mpu_regs_loop]
    have hlt : 3 * j < 3 * cfg.MPU_NUM_REGIONS := by omega
    have hstep : 3 * j + 3 = 3 * (j + 1) := by ring
    rw [if_pos hlt, hstep, ih (j + 1) _ (by omega)]
    simp only [up_mpu_set_register, emit, List.range_succ_eq_map, List.map_cons, List.map_map,
      List.append_assoc, List.singleton_append, Nat.add_zero]
    congr 3
    apply List.map_congr_left
    intro m _
    simp only [Function.comp_apply]
    congr 3
    omega

theorem mpu_regs_loop_eq {S : Type} (cfg : Config) (rtcb : TaskId) (k : Kernel S) :
    mpu_regs_loop cfg rtcb 0 k
      = { k with trace := k.trace ++ region_calls rtcb cfg.MPU_NUM_REGIONS } := by
  have h := mpu_regs_loop_from cfg rtcb cfg.MPU_NUM_REGIONS 0 k (by omega)
  simpa [region_calls] using h

theorem restore_mpu_eq {S : Type} (cfg : Config) (rtcb : TaskId) (k : Kernel S) :
    restore_mpu cfg rtcb k
      = { k with trace := k.trace ++ mpu_events cfg rtcb (k.tcbs rtcb) } := by
  unfold restore_mpu mpu_events kernel_kind
  by_cases hm : cfg.CONFIG_ARMV7M_MPU = true
  · by_cases hk : (k.tcbs rtcb).flags &&& cfg.TCB_FLAG_TTYPE_MASK = cfg.TCB_FLAG_TTYPE_KERNEL
    · by_cases hs : cfg.CONFIG_MPU_STACK_OVERFLOW_PROTECTION = true
      · simp [hm, hk, hs, up_mpu_set_register, emit]
      · simp [hm, hk, hs]
    · by_cases hb : cfg.CONFIG_APP_BINARY_SEPARATION = true
      · by_cases hs : cfg.CONFIG_MPU_STACK_OVERFLOW_PROTECTION = true
        · simp [hm, hk, hb, hs, up_mpu_set_register, emit, mpu_regs_loop_eq]
        · simp [hm, hk, hb, hs, mpu_regs_loop_eq]
      · by_cases hs : cfg.CONFIG_MPU_STACK_OVERFLOW_PROTECTION = true
        · simp [hm, hk, hb, hs, up_mpu_set_register, emit]
        · simp [hm, hk, hb, hs]
  · simp [hm]

theorem tcbs_after_flags (cfg : Config) (tcb t : TaskId) (tcbs : TaskId → tcb_s) :
    (tcbs_after cfg tcb tcbs t).flags = (tcbs t).flags := by
  unfold tcbs_after
  split
  · by_cases h : t = tcb
    · subst h; simp
    · simp [Function.update_noteq h]
  · rfl

theorem tcbs_after_app_id (cfg : Config) (tcb t : TaskId) (tcbs : TaskId → tcb_s) :
    (tcbs_after cfg tcb tcbs t).app_id = (tcbs t).app_id := by
  unfold tcbs_after
  split
  · by_cases h : t = tcb
    · subst h; simp
    · simp [Function.update_noteq h]
  · rfl

theorem tcbs_after_is_active (cfg : Config) (tcb t : TaskId) (tcbs : TaskId → tcb_s) :
    (tcbs_after cfg tcb tcbs t).is_active = (tcbs t).is_active := by
  unfold tcbs_after
  split
  · by_cases h : t = tcb
    · subst h; simp
    · simp [Function.update_noteq h]
  · rfl

theorem tcbs_after_timeslice (cfg : Config) (tcb t : TaskId) (tcbs : TaskId → tcb_s) :
    (tcbs_after cfg tcb tcbs t).timeslice
      = if t = tcb ∧ 0 < cfg.CONFIG_RR_INTERVAL then cfg.MSEC2TICK cfg.CONFIG_RR_INTERVAL
        else (tcbs t).timeslice := by
  unfold tcbs_after
  by_cases hr : 0 < cfg.CONFIG_RR_INTERVAL
  · by_cases h : t = tcb
    · subst h; simp [hr]
    · simp [hr, h, Function.update_noteq h]
  · simp [hr]

theorem mpu_events_flags (cfg : Config) (t : TaskId) (b c : tcb_s) (h : b.flags = c.flags) :
    mpu_events cfg t b = mpu_events cfg t c := by
  simp [mpu_events, kernel_kind, h]

theorem reset_timeslice_eq {S : Type} (cfg : Config) (tcb : TaskId) (k : Kernel S) :
    reset_timeslice cfg tcb k
      = { k with
          tcbs := tcbs_after cfg tcb k.tcbs
          trace := k.trace ++ (if 0 < cfg.CONFIG_RR_INTERVAL then
            [Event.store_timeslice tcb (cfg.MSEC2TICK cfg.CONFIG_RR_INTERVAL)] else []) } := by
  unfold reset_timeslice tcbs_after
  by_cases hr : 0 < cfg.CONFIG_RR_INTERVAL
  · simp [hr, store_timeslice, emit]
  · simp [hr]

theorem record_history_eq {S : Type} (cfg : Config) (t : TaskId) (k : Kernel S) :
    record_history cfg t k = { k with trace := k.trace ++ history_events cfg t } := by
  unfold record_history history_events
  by_cases hh : cfg.CONFIG_TASK_SCHED_HISTORY = true
  · simp [hh, save_task_scheduling_status, emit]
  · simp [hh]

theorem up_unblock_task_assert {S : Type} (cfg : Config) (sc : Sched S) (tcb : TaskId)
    (k : Kernel S) (h : ¬ in_blocked_range cfg sc tcb k) :
    up_unblock_task cfg sc tcb k = .assert_failed k := by
  unfold in_blocked_range at h
  simp only [up_unblock_task, if_neg h]

theorem up_unblock_task_no_switch {S : Type} (cfg : Config) (sc : Sched S) (tcb : TaskId)
    (k : Kernel S) (h : in_blocked_range cfg sc tcb k) (hs : head_changed sc tcb k = false) :
    up_unblock_task cfg sc tcb k = .ok (after_no_switch cfg sc tcb k) := by
  unfold in_blocked_range at h
  unfold head_changed at hs
  simp only [up_unblock_task, if_pos h, sched_addreadytorun, sched_removeblocked, emit,
    reset_timeslice_eq, hs, after_no_switch, lists_after, entry_events]
  simp

theorem up_unblock_task_thread {S : Type} (cfg : Config) (sc : Sched S) (tcb : TaskId)
    (k : Kernel S) (h : in_blocked_range cfg sc tcb k) (hs : head_changed sc tcb k = true)
    (hc : k.current_regs = none) :
    up_unblock_task cfg sc tcb k = .ok (after_thread_switch cfg sc tcb k) := by
  unfold in_blocked_range at h
  unfold head_changed at hs
  simp [up_unblock_task, h, sched_addreadytorun, sched_removeblocked, emit,
    reset_timeslice_eq, hs, hc, after_thread_switch, lists_after, entry_events,
    record_history_eq, up_switchcontext, new_head, old_task]

theorem up_unblock_task_irq {S : Type} (cfg : Config) (sc : Sched S) (tcb : TaskId)
    (k : Kernel S) (snapshot : RegsRef) (h : in_blocked_range cfg sc tcb k)
    (hs : head_changed sc tcb k = true) (hc : k.current_regs = some snapshot) :
    up_unblock_task cfg sc tcb k = .ok (after_irq_switch cfg sc tcb snapshot k) := by
  unfold in_blocked_range at h
  unfold head_changed at hs
  have hf := tcbs_after_flags cfg tcb (sc.this_task
    (sc.sched_addreadytorun tcb (sc.sched_removeblocked tcb k.sched)).1) k.tcbs
  have ha := tcbs_after_app_id cfg tcb (sc.this_task
    (sc.sched_addreadytorun tcb (sc.sched_removeblocked tcb k.sched)).1) k.tcbs
  have hm := mpu_events_flags cfg (sc.this_task
    (sc.sched_addreadytorun tcb (sc.sched_removeblocked tcb k.sched)).1) _ _ hf
  by_cases hb : cfg.CONFIG_SUPPORT_COMMON_BINARY = true <;>
  by_cases hg : k.g_umm_app_id.isSome = true <;>
  by_cases hmon : cfg.CONFIG_TASK_MONITOR = true <;>
  simp [up_unblock_task, h, sched_addreadytorun, sched_removeblocked, emit,
    reset_timeslice_eq, hs, hc, after_irq_switch, lists_after, entry_events,
    record_history_eq, restore_mpu_eq, up_savestate, up_restorestate, new_head, old_task,
    update_app_id, update_monitor, store_app_id, store_is_active, bookkeeping_events,
    hb, hg, hmon, ha, hm]

/-! ## Lemmas on the actions of each block -/

theorem entry_events_plain (cfg : Config) (tcb : TaskId) :
    ∀ e ∈ entry_events cfg tcb,
      e.is_switch_action = false ∧ e.is_mpu = false ∧ e.is_bookkeeping_store = false := by
  intro e he
  unfold entry_events at he
  split at he <;> simp at he <;> rcases he with rfl | rfl | rfl <;>
    simp [Event.is_switch_action, Event.is_mpu, Event.is_bookkeeping_store]

theorem history_events_plain (cfg : Config) (t : TaskId) :
    ∀ e ∈ history_events cfg t,
      e.is_switch_action = false ∧ e.is_mpu = false ∧ e.is_bookkeeping_store = false := by
  intro e he
  unfold history_events at he
  split at he <;> simp at he
  subst he
  simp [Event.is_switch_action, Event.is_mpu, Event.is_bookkeeping_store]

theorem region_calls_plain (t : TaskId) (n : Nat) :
    ∀ e ∈ region_calls t n,
      e.is_switch_action = false ∧ e.is_region_call = true ∧ e.is_stack_call = false := by
  intro e he
  simp only [region_calls, List.mem_map] at he
  obtain ⟨j, _, rfl⟩ := he
  simp [Event.is_switch_action, Event.is_region_call, Event.is_stack_call]

theorem mpu_events_plain (cfg : Config) (t : TaskId) (b : tcb_s) :
    ∀ e ∈ mpu_events cfg t b, e.is_switch_action = false := by
  intro e he
  unfold mpu_events at he
  split at he
  · rw [List.mem_append] at he
    rcases he with he | he
    · split at he
      · exact (region_calls_plain t _ e he).1
      · simp at he
    · split at he <;> simp at he
      subst he
      rfl
  · simp at he

theorem bookkeeping_events_plain (cfg : Config) (t : TaskId) (b : tcb_s) (store : Option Nat) :
    ∀ e ∈ bookkeeping_events cfg t b store,
      e.is_switch_action = false ∧ e.is_mpu = false := by
  intro e he
  unfold bookkeeping_events at he
  rw [List.mem_append] at he
  rcases he with he | he <;> split at he <;> simp at he <;> subst he <;>
    simp [Event.is_switch_action, Event.is_mpu]

theorem filter_nil_of_plain {p : Event → Bool} {l : List Event}
    (h : ∀ e ∈ l, p e = false) : l.filter p = [] := by
  rw [List.filter_eq_nil_iff]
  intro e he
  simp [h e he]

theorem filter_self_of_all {p : Event → Bool} {l : List Event}
    (h : ∀ e ∈ l, p e = true) : l.filter p = l := by
  rw [List.filter_eq_self]
  exact h

theorem not_mpu_not_region {e : Event} (h : e.is_mpu = false) :
    e.is_region_call = false ∧ e.is_stack_call = false := by
  cases e <;> simp_all [Event.is_mpu, Event.is_region_call, Event.is_stack_call]

theorem filter_region_mpu_events (cfg : Config) (t : TaskId) (b : tcb_s) :
    (mpu_events cfg t b).filter Event.is_region_call
      = if cfg.CONFIG_ARMV7M_MPU = true ∧ ¬ kernel_kind cfg b
            ∧ cfg.CONFIG_APP_BINARY_SEPARATION = true then
          region_calls t cfg.MPU_NUM_REGIONS
        else [] := by
  have hr : (region_calls t cfg.MPU_NUM_REGIONS).filter Event.is_region_call
      = region_calls t cfg.MPU_NUM_REGIONS :=
    filter_self_of_all (fun e he => (region_calls_plain t _ e he).2.1)
  unfold mpu_events
  by_cases hm : cfg.CONFIG_ARMV7M_MPU = true <;>
  by_cases hk : kernel_kind cfg b <;>
  by_cases hb : cfg.CONFIG_APP_BINARY_SEPARATION = true <;>
  by_cases hst : cfg.CONFIG_MPU_STACK_OVERFLOW_PROTECTION = true <;>
  simp [hm, hk, hb, hst, hr, List.filter_append, Event.is_region_call]

theorem filter_stack_mpu_events (cfg : Config) (t : TaskId) (b : tcb_s) :
    (mpu_events cfg t b).filter Event.is_stack_call
      = if cfg.CONFIG_ARMV7M_MPU = true
            ∧ cfg.CONFIG_MPU_STACK_OVERFLOW_PROTECTION = true then
          [Event.up_mpu_set_register (.stack_mpu_regs t)]
        else [] := by
  have hr : (region_calls t cfg.MPU_NUM_REGIONS).filter Event.is_stack_call = [] :=
    filter_nil_of_plain (fun e he => (region_calls_plain t _ e he).2.2)
  unfold mpu_events
  by_cases hm : cfg.CONFIG_ARMV7M_MPU = true <;>
  by_cases hk : kernel_kind cfg b <;>
  by_cases hb : cfg.CONFIG_APP_BINARY_SEPARATION = true <;>
  by_cases hst : cfg.CONFIG_MPU_STACK_OVERFLOW_PROTECTION = true <;>
  simp [hm, hk, hb, hst, hr, List.filter_append, Event.is_stack_call]

theorem filter_entry_events (cfg : Config) (tcb : TaskId) :
    (entry_events cfg tcb).filter Event.is_switch_action = []
    ∧ (entry_events cfg tcb).filter Event.is_mpu = []
    ∧ (entry_events cfg tcb).filter Event.is_region_call = []
    ∧ (entry_events cfg tcb).filter Event.is_stack_call = [] :=
  ⟨filter_nil_of_plain (fun e he => (entry_events_plain cfg tcb e he).1),
   filter_nil_of_plain (fun e he => (entry_events_plain cfg tcb e he).2.1),
   filter_nil_of_plain (fun e he => (not_mpu_not_region (entry_events_plain cfg tcb e he).2.1).1),
   filter_nil_of_plain (fun e he => (not_mpu_not_region (entry_events_plain cfg tcb e he).2.1).2)⟩

theorem filter_history_events (cfg : Config) (t : TaskId) :
    (history_events cfg t).filter Event.is_switch_action = []
    ∧ (history_events cfg t).filter Event.is_mpu = []
    ∧ (history_events cfg t).filter Event.is_region_call = []
    ∧ (history_events cfg t).filter Event.is_stack_call = [] :=
  ⟨filter_nil_of_plain (fun e he => (history_events_plain cfg t e he).1),
   filter_nil_of_plain (fun e he => (history_events_plain cfg t e he).2.1),
   filter_nil_of_plain (fun e he => (not_mpu_not_region (history_events_plain cfg t e he).2.1).1),
   filter_nil_of_plain (fun e he => (not_mpu_not_region (history_events_plain cfg t e he).2.1).2)⟩

theorem filter_bookkeeping_events (cfg : Config) (t : TaskId) (b : tcb_s)
    (store : Option Nat) :
    (bookkeeping_events cfg t b store).filter Event.is_switch_action = []
    ∧ (bookkeeping_events cfg t b store).filter Event.is_mpu = []
    ∧ (bookkeeping_events cfg t b store).filter Event.is_region_call = []
    ∧ (bookkeeping_events cfg t b store).filter Event.is_stack_call = [] :=
  ⟨filter_nil_of_plain (fun e he => (bookkeeping_events_plain cfg t b store e he).1),
   filter_nil_of_plain (fun e he => (bookkeeping_events_plain cfg t b store e he).2),
   filter_nil_of_plain
     (fun e he => (not_mpu_not_region (bookkeeping_events_plain cfg t b store e he).2).1),
   filter_nil_of_plain
     (fun e he => (not_mpu_not_region (bookkeeping_events_plain cfg t b store e he).2).2)⟩

theorem filter_switch_mpu_events (cfg : Config) (t : TaskId) (b : tcb_s) :
    (mpu_events cfg t b).filter Event.is_switch_action = [] :=
  filter_nil_of_plain (mpu_events_plain cfg t b)

/-- In the blocked range the call returns, in one of the three states above. -/
theorem up_unblock_task_returns {S : Type} (cfg : Config) (sc : Sched S) (tcb : TaskId)
    (k : Kernel S) (h : in_blocked_range cfg sc tcb k) :
    up_unblock_task cfg sc tcb k
      = .ok (if head_changed sc tcb k = true then
          match k.current_regs with
          | some snapshot => after_irq_switch cfg sc tcb snapshot k
          | none => after_thread_switch cfg sc tcb k
        else after_no_switch cfg sc tcb k) := by
  cases hs : head_changed sc tcb k with
  | false => simpa using up_unblock_task_no_switch cfg sc tcb k h hs
  | true =>
    cases hc : k.current_regs with
    | none => simpa using up_unblock_task_thread cfg sc tcb k h hs hc
    | some snapshot => simpa using up_unblock_task_irq cfg sc tcb k snapshot h hs hc

/-! ## The claims -/

/-- C1: for a task in the blocked range the call returns, and among the
actions it performed there is a register transfer (`up_savestate`,
`up_restorestate` or `up_switchcontext`) if and only if
`sched_addreadytorun(tcb)` returned true.  When it returned false, no register
transfer, no `up_mpu_set_register` and no store through `g_umm_app_id` or to
an `is_active` flag is among the actions, and the application-id word and all
`is_active` flags have their entry values. -/
theorem C1_switch_iff_head_changed {S : Type} (cfg : Config) (sc : Sched S) (tcb : TaskId)
    (k : Kernel S) (h : in_blocked_range cfg sc tcb k) :
    ∃ k' evs, up_unblock_task cfg sc tcb k = .ok k' ∧ k'.trace = k.trace ++ evs ∧
      ((∃ e ∈ evs, e.is_switch_action = true) ↔ head_changed sc tcb k = true) ∧
      (head_changed sc tcb k = false →
        (∀ e ∈ evs, e.is_switch_action = false ∧ e.is_mpu = false
          ∧ e.is_bookkeeping_store = false)
        ∧ k'.g_umm_app_id = k.g_umm_app_id
        ∧ ∀ t, (k'.tcbs t).is_active = (k.tcbs t).is_active) := by
  cases hs : head_changed sc tcb k with
  | false =>
    refine ⟨_, entry_events cfg tcb, up_unblock_task_no_switch cfg sc tcb k h hs, rfl, ?_, ?_⟩
    · constructor
      · rintro ⟨e, he, hsw⟩
        rw [(entry_events_plain cfg tcb e he).1] at hsw
        exact hsw
      · intro hf
        cases hf
    · intro _
      exact ⟨entry_events_plain cfg tcb, rfl, fun t => tcbs_after_is_active cfg tcb t k.tcbs⟩
  | true =>
    cases hc : k.current_regs with
    | none =>
      refine ⟨_, _, up_unblock_task_thread cfg sc tcb k h hs hc, rfl, ?_, ?_⟩
      · constructor
        · intro _
          rfl
        · intro _
          exact ⟨.up_switchcontext (.xcp (old_task sc k)) (.xcp (new_head sc tcb k)),
            by simp, rfl⟩
      · intro hf
        cases hf
    | some snapshot =>
      refine ⟨_, _, up_unblock_task_irq cfg sc tcb k snapshot h hs hc, rfl, ?_, ?_⟩
      · constructor
        · intro _
          rfl
        · intro _
          exact ⟨.up_savestate (.xcp (old_task sc k)), by simp, rfl⟩
      · intro hf
        cases hf

/-- C1 at a concrete input: unblocking task 2 (priority 5) under the running
task 1 (priority 10) from a handler. -/
theorem C1_switch_iff_head_changed_witness :
    in_blocked_range demo_cfg list_sched 2 demo_irq ∧
    head_changed list_sched 2 demo_irq = false ∧
    ∃ k' evs, up_unblock_task demo_cfg list_sched 2 demo_irq = .ok k'
      ∧ k'.trace = demo_irq.trace ++ evs
      ∧ (∀ e ∈ evs, e.is_switch_action = false ∧ e.is_mpu = false
          ∧ e.is_bookkeeping_store = false)
      ∧ k'.g_umm_app_id = demo_irq.g_umm_app_id
      ∧ ∀ t, (k'.tcbs t).is_active = (demo_irq.tcbs t).is_active := by
  obtain ⟨k', evs, h1, h2, _, h4⟩ :=
    C1_switch_iff_head_changed demo_cfg list_sched 2 demo_irq (by decide)
  have h5 := h4 (by decide)
  exact ⟨by decide, by decide, k', evs, h1, h2, h5.1, h5.2.1, h5.2.2⟩

/-- C2: the call ends in the failed `ASSERT` exactly when `tcb->task_state`
is outside `[FIRST_BLOCKED_STATE, LAST_BLOCKED_STATE]`, and then it halts in
the very state it was entered with: the trace has no `sched_removeblocked` or
`sched_addreadytorun` action added and no field (in particular no
`timeslice`) has changed. -/
theorem C2_assert_exactly_outside_range {S : Type} (cfg : Config) (sc : Sched S)
    (tcb : TaskId) (k : Kernel S) :
    ((up_unblock_task cfg sc tcb k).failed = true ↔ ¬ in_blocked_range cfg sc tcb k) ∧
    ((up_unblock_task cfg sc tcb k).failed = true →
      up_unblock_task cfg sc tcb k = .assert_failed k) := by
  by_cases h : in_blocked_range cfg sc tcb k
  · simp [up_unblock_task_returns cfg sc tcb k h, Outcome.failed, h]
  · simp [up_unblock_task_assert cfg sc tcb k h, Outcome.failed, h]

/-- C2 at a concrete input: task 1 is running (state 3), not blocked. -/
theorem C2_assert_exactly_outside_range_witness :
    ¬ in_blocked_range demo_cfg list_sched 1 demo_irq ∧
    (up_unblock_task demo_cfg list_sched 1 demo_irq).failed = true ∧
    up_unblock_task demo_cfg list_sched 1 demo_irq = .assert_failed demo_irq :=
  have h := C2_assert_exactly_outside_range demo_cfg list_sched 1 demo_irq
  ⟨by decide, h.1.mpr (by decide), h.2 (h.1.mpr (by decide))⟩

/-- C3: on the interrupt-context path (`sched_addreadytorun` returned true
and `current_regs` is non-null) the register transfers among the actions of
the call are, in this order and with nothing else: one `up_savestate` on the
`xcp.regs` of the task `this_task()` returned at entry, then one
`up_restorestate` on the `xcp.regs` of the task `this_task()` returns after
the insertion.  In particular there is no `up_switchcontext`. -/
theorem C3_irq_path_register_transfers {S : Type} (cfg : Config) (sc : Sched S)
    (tcb : TaskId) (k : Kernel S) (h : in_blocked_range cfg sc tcb k)
    (hs : head_changed sc tcb k = true) (hc : k.current_regs ≠ none) :
    ∃ k' evs, up_unblock_task cfg sc tcb k = .ok k' ∧ k'.trace = k.trace ++ evs ∧
      evs.filter Event.is_switch_action
        = [Event.up_savestate (.xcp (old_task sc k)),
           Event.up_restorestate (.xcp (new_head sc tcb k))] := by
  obtain ⟨snapshot, hsnap⟩ := Option.ne_none_iff_exists'.mp hc
  refine ⟨_, _, up_unblock_task_irq cfg sc tcb k snapshot h hs hsnap, rfl, ?_⟩
  simp [List.filter_append, filter_entry_events, filter_history_events,
    filter_bookkeeping_events, filter_switch_mpu_events, Event.is_switch_action]

/-- C3 at a concrete input: task 4 (priority 20) unblocked from a handler
that interrupted task 1. -/
theorem C3_irq_path_register_transfers_witness :
    in_blocked_range demo_cfg list_sched 4 demo_irq ∧
    head_changed list_sched 4 demo_irq = true ∧
    demo_irq.current_regs ≠ none ∧
    ∃ k' evs, up_unblock_task demo_cfg list_sched 4 demo_irq = .ok k'
      ∧ k'.trace = demo_irq.trace ++ evs
      ∧ evs.filter Event.is_switch_action
        = [Event.up_savestate (.xcp (old_task list_sched demo_irq)),
           Event.up_restorestate (.xcp (new_head list_sched 4 demo_irq))] :=
  ⟨by decide, by decide, by decide,
   C3_irq_path_register_transfers demo_cfg list_sched 4 demo_irq
     (by decide) (by decide) (by decide)⟩

/-- C4: on the normal-context path (`sched_addreadytorun` returned true and
`current_regs` is null) the register transfers among the actions of the call
are exactly one `up_switchcontext`, whose first argument is the `xcp.regs` of
the task running at entry and whose second argument is the `xcp.regs` of the
new head of the ready-to-run list.  In particular there is no `up_savestate`
and no `up_restorestate`. -/
theorem C4_thread_path_switchcontext {S : Type} (cfg : Config) (sc : Sched S)
    (tcb : TaskId) (k : Kernel S) (h : in_blocked_range cfg sc tcb k)
    (hs : head_changed sc tcb k = true) (hc : k.current_regs = none) :
    ∃ k' evs, up_unblock_task cfg sc tcb k = .ok k' ∧ k'.trace = k.trace ++ evs ∧
      evs.filter Event.is_switch_action
        = [Event.up_switchcontext (.xcp (old_task sc k)) (.xcp (new_head sc tcb k))] := by
  refine ⟨_, _, up_unblock_task_thread cfg sc tcb k h hs hc, rfl, ?_⟩
  simp [List.filter_append, filter_entry_events, filter_history_events,
    Event.is_switch_action]

/-- C4 at a concrete input: task 4 (priority 20) unblocked by the running
task 1. -/
theorem C4_thread_path_switchcontext_witness :
    in_blocked_range demo_cfg list_sched 4 demo_thread ∧
    head_changed list_sched 4 demo_thread = true ∧
    demo_thread.current_regs = none ∧
    ∃ k' evs, up_unblock_task demo_cfg list_sched 4 demo_thread = .ok k'
      ∧ k'.trace = demo_thread.trace ++ evs
      ∧ evs.filter Event.is_switch_action
        = [Event.up_switchcontext (.xcp (old_task list_sched demo_thread))
            (.xcp (new_head list_sched 4 demo_thread))] :=
  ⟨by decide, by decide, rfl,
   C4_thread_path_switchcontext demo_cfg list_sched 4 demo_thread (by decide) (by decide) rfl⟩

/-- C5 as amended: protection isolation on the interrupt-context path.  For
a task in the blocked range the call returns and
* if the new head of the ready-to-run list is of KERNEL kind, no action of the
  call is an `up_mpu_set_register` on an entry of an `mpu_regs` list (on
  either path, in every configuration);
* if it is of APPLICATION kind (not KERNEL), on the interrupt-context switch
  path of a build that has the region list (`CONFIG_ARMV7M_MPU` and
  `CONFIG_APP_BINARY_SEPARATION`), the actions are
  `pre ++ [up_savestate old] ++ mid ++ [up_restorestate new]` where `pre` has
  no `up_mpu_set_register`, `mid` has no register transfer, and the `mpu_regs`
  calls of `mid` are exactly `MPU_NUM_REGIONS` calls, the `j`-th (counted from
  0) on `&new->mpu_regs[3*j]`. -/
theorem C5_protection_isolation {S : Type} (cfg : Config) (sc : Sched S) (tcb : TaskId)
    (k : Kernel S) (h : in_blocked_range cfg sc tcb k) :
    ∃ k' evs, up_unblock_task cfg sc tcb k = .ok k' ∧ k'.trace = k.trace ++ evs ∧
      (kernel_kind cfg (k.tcbs (new_head sc tcb k)) →
        evs.filter Event.is_region_call = []) ∧
      (cfg.CONFIG_ARMV7M_MPU = true → cfg.CONFIG_APP_BINARY_SEPARATION = true →
        head_changed sc tcb k = true → k.current_regs ≠ none →
        ¬ kernel_kind cfg (k.tcbs (new_head sc tcb k)) →
        ∃ pre mid,
          evs = pre ++ [Event.up_savestate (.xcp (old_task sc k))] ++ mid
                  ++ [Event.up_restorestate (.xcp (new_head sc tcb k))]
          ∧ pre.filter Event.is_mpu = []
          ∧ mid.filter Event.is_switch_action = []
          ∧ mid.filter Event.is_region_call
              = region_calls (new_head sc tcb k) cfg.MPU_NUM_REGIONS
          ∧ (mid.filter Event.is_region_call).length = cfg.MPU_NUM_REGIONS
          ∧ ∀ j, j < cfg.MPU_NUM_REGIONS →
              (mid.filter Event.is_region_call)[j]?
                = some (Event.up_mpu_set_register (.mpu_regs (new_head sc tcb k) (3 * j)))) := by
  cases hs : head_changed sc tcb k with
  | false =>
    refine ⟨_, entry_events cfg tcb, up_unblock_task_no_switch cfg sc tcb k h hs, rfl, ?_, ?_⟩
    · intro _
      exact (filter_entry_events cfg tcb).2.2.1
    · intro _ _ hf
      cases hf
  | true =>
    cases hc : k.current_regs with
    | none =>
      refine ⟨_, _, up_unblock_task_thread cfg sc tcb k h hs hc, rfl, ?_, ?_⟩
      · intro _
        simp [List.filter_append, filter_entry_events, filter_history_events,
          Event.is_region_call]
      · intro _ _ _ hf
        exact absurd rfl hf
    | some snapshot =>
      refine ⟨_, _, up_unblock_task_irq cfg sc tcb k snapshot h hs hc, rfl, ?_, ?_⟩
      · intro hk
        simp [List.filter_append, filter_entry_events, filter_history_events,
          filter_bookkeeping_events, filter_region_mpu_events, hk, Event.is_region_call]
      · intro hm hb _ _ hk
        have hmid : (history_events cfg (new_head sc tcb k)
            ++ (mpu_events cfg (new_head sc tcb k) (k.tcbs (new_head sc tcb k))
            ++ bookkeeping_events cfg (new_head sc tcb k) (k.tcbs (new_head sc tcb k))
                k.g_umm_app_id)).filter Event.is_region_call
            = region_calls (new_head sc tcb k) cfg.MPU_NUM_REGIONS := by
          simp [List.filter_append, filter_history_events, filter_bookkeeping_events,
            filter_region_mpu_events, hm, hb, hk]
        refine ⟨entry_events cfg tcb,
          history_events cfg (new_head sc tcb k)
            ++ (mpu_events cfg (new_head sc tcb k) (k.tcbs (new_head sc tcb k))
            ++ bookkeeping_events cfg (new_head sc tcb k) (k.tcbs (new_head sc tcb k))
                k.g_umm_app_id), ?_, (filter_entry_events cfg tcb).2.1, ?_, hmid, ?_, ?_⟩
        · simp [after_irq_switch]
        · simp [List.filter_append, filter_history_events, filter_bookkeeping_events,
            filter_switch_mpu_events]
        · rw [hmid]
          simp [region_calls]
        · intro j hj
          rw [hmid]
          simp [region_calls, hj]

/-- C5 as amended, at a concrete input: the application task 4 (priority 20) unblocked
from a handler that interrupted task 1, with 8 regions. -/
theorem C5_protection_isolation_witness :
    in_blocked_range demo_cfg list_sched 4 demo_irq ∧
    ¬ kernel_kind demo_cfg (demo_irq.tcbs (new_head list_sched 4 demo_irq)) ∧
    ∃ k' pre mid, up_unblock_task demo_cfg list_sched 4 demo_irq = .ok k'
      ∧ k'.trace = demo_irq.trace
          ++ (pre ++ [Event.up_savestate (.xcp 1)] ++ mid ++ [Event.up_restorestate (.xcp 4)])
      ∧ pre.filter Event.is_mpu = []
      ∧ mid.filter Event.is_switch_action = []
      ∧ mid.filter Event.is_region_call = region_calls 4 8 := by
  obtain ⟨k', evs, h1, h2, _, h4⟩ :=
    C5_protection_isolation demo_cfg list_sched 4 demo_irq (by decide)
  obtain ⟨pre, mid, h5, h6, h7, h8, _, _⟩ :=
    h4 rfl rfl (by decide) (by decide) (by decide)
  refine ⟨by decide, by decide, k', pre, mid, h1, ?_, h6, h7, h8⟩
  rw [h2, h5]
  rfl

/-- C7: in a build with the stack-overflow region (`CONFIG_ARMV7M_MPU` and,
nested in it, `CONFIG_MPU_STACK_OVERFLOW_PROTECTION`), on the
interrupt-context switch path the actions of the call end with the
`up_restorestate` on the new head, and the `stack_mpu_regs` calls before it
are exactly one `up_mpu_set_register(new->stack_mpu_regs)`.  Nothing is
assumed about the kind of the new head. -/
theorem C7_stack_region_applied_once {S : Type} (cfg : Config) (sc : Sched S)
    (tcb : TaskId) (k : Kernel S) (h : in_blocked_range cfg sc tcb k)
    (hs : head_changed sc tcb k = true) (hc : k.current_regs ≠ none)
    (hm : cfg.CONFIG_ARMV7M_MPU = true)
    (hst : cfg.CONFIG_MPU_STACK_OVERFLOW_PROTECTION = true) :
    ∃ k' pre, up_unblock_task cfg sc tcb k = .ok k'
      ∧ k'.trace = k.trace ++ pre ++ [Event.up_restorestate (.xcp (new_head sc tcb k))]
      ∧ pre.filter Event.is_stack_call
          = [Event.up_mpu_set_register (.stack_mpu_regs (new_head sc tcb k))] := by
  obtain ⟨snapshot, hsnap⟩ := Option.ne_none_iff_exists'.mp hc
  refine ⟨_, entry_events cfg tcb ++ ([Event.up_savestate (.xcp (old_task sc k))]
      ++ (history_events cfg (new_head sc tcb k)
      ++ (mpu_events cfg (new_head sc tcb k) (k.tcbs (new_head sc tcb k))
      ++ bookkeeping_events cfg (new_head sc tcb k) (k.tcbs (new_head sc tcb k))
          k.g_umm_app_id))),
    up_unblock_task_irq cfg sc tcb k snapshot h hs hsnap, ?_, ?_⟩
  · simp [after_irq_switch]
  · simp [List.filter_append, filter_entry_events, filter_history_events,
      filter_bookkeeping_events, filter_stack_mpu_events, hm, hst, Event.is_stack_call]

/-- C7 at a concrete input: the kernel thread 5 (priority 30) unblocked from
a handler that interrupted task 1. -/
theorem C7_stack_region_applied_once_witness :
    in_blocked_range demo_cfg list_sched 5 demo_irq ∧
    head_changed list_sched 5 demo_irq = true ∧
    demo_irq.current_regs ≠ none ∧
    kernel_kind demo_cfg (demo_irq.tcbs (new_head list_sched 5 demo_irq)) ∧
    ∃ k' pre, up_unblock_task demo_cfg list_sched 5 demo_irq = .ok k'
      ∧ k'.trace = demo_irq.trace ++ pre
          ++ [Event.up_restorestate (.xcp (new_head list_sched 5 demo_irq))]
      ∧ pre.filter Event.is_stack_call
          = [Event.up_mpu_set_register (.stack_mpu_regs (new_head list_sched 5 demo_irq))] :=
  ⟨by decide, by decide, by decide, by decide,
   C7_stack_region_applied_once demo_cfg list_sched 5 demo_irq
     (by decide) (by decide) (by decide) rfl rfl⟩

/-- C8: for a task in the blocked range the call returns, and afterwards the
timeslice of the unblocked task is `MSEC2TICK(CONFIG_RR_INTERVAL)` when
`CONFIG_RR_INTERVAL > 0` and its entry value otherwise, whatever the entry
value, the path taken and the other fields of the task; the timeslice of
every other task has its entry value. -/
theorem C8_timeslice_reset {S : Type} (cfg : Config) (sc : Sched S) (tcb : TaskId)
    (k : Kernel S) (h : in_blocked_range cfg sc tcb k) :
    ∃ k', up_unblock_task cfg sc tcb k = .ok k'
      ∧ (k'.tcbs tcb).timeslice
          = (if 0 < cfg.CONFIG_RR_INTERVAL then cfg.MSEC2TICK cfg.CONFIG_RR_INTERVAL
             else (k.tcbs tcb).timeslice)
      ∧ ∀ t, t ≠ tcb → (k'.tcbs t).timeslice = (k.tcbs t).timeslice := by
  have key : ∀ k' : Kernel S,
      (∀ t, (k'.tcbs t).timeslice = (tcbs_after cfg tcb k.tcbs t).timeslice) →
      (k'.tcbs tcb).timeslice
          = (if 0 < cfg.CONFIG_RR_INTERVAL then cfg.MSEC2TICK cfg.CONFIG_RR_INTERVAL
             else (k.tcbs tcb).timeslice)
      ∧ ∀ t, t ≠ tcb → (k'.tcbs t).timeslice = (k.tcbs t).timeslice := by
    intro k' hk'
    constructor
    · rw [hk', tcbs_after_timeslice]
      simp
    · intro t ht
      rw [hk', tcbs_after_timeslice]
      simp [ht]
  refine ⟨_, up_unblock_task_returns cfg sc tcb k h, key _ ?_⟩
  intro t
  cases hs : head_changed sc tcb k with
  | false => simp [after_no_switch]
  | true =>
    cases hc : k.current_regs with
    | none => simp [after_thread_switch]
    | some snapshot =>
      by_cases hmon : cfg.CONFIG_TASK_MONITOR = true
      · by_cases ht : t = new_head sc tcb k
        · subst ht
          simp [after_irq_switch, hmon]
        · simp [after_irq_switch, hmon, Function.update_noteq ht]
      · simp [after_irq_switch, hmon]

/-- C8 at a concrete input: task 4 had 3 ticks left and is given
`MSEC2TICK(100) = 10`. -/
theorem C8_timeslice_reset_witness :
    in_blocked_range demo_cfg list_sched 4 demo_irq ∧
    (demo_irq.tcbs 4).timeslice = 3 ∧
    ∃ k', up_unblock_task demo_cfg list_sched 4 demo_irq = .ok k'
      ∧ (k'.tcbs 4).timeslice = 10
      ∧ ∀ t, t ≠ 4 → (k'.tcbs t).timeslice = (demo_irq.tcbs t).timeslice := by
  obtain ⟨k', h1, h2, h3⟩ := C8_timeslice_reset demo_cfg list_sched 4 demo_irq (by decide)
  exact ⟨by decide, by decide, k', h1, h2, h3⟩

/-- C9: in a build with `CONFIG_SUPPORT_COMMON_BINARY`, for a task in the
blocked range the call returns and
* after an interrupt-context switch the word behind `g_umm_app_id`, when the
  pointer is non-null, holds the `app_id` of the new head of the ready-to-run
  list (a null pointer stays null);
* when `sched_addreadytorun` returned false the pointer and the word are as
  at entry.
No `app_id` field is changed by the call. -/
theorem C9_app_id_store {S : Type} (cfg : Config) (sc : Sched S) (tcb : TaskId)
    (k : Kernel S) (h : in_blocked_range cfg sc tcb k)
    (hcb : cfg.CONFIG_SUPPORT_COMMON_BINARY = true) :
    ∃ k', up_unblock_task cfg sc tcb k = .ok k'
      ∧ (head_changed sc tcb k = true → k.current_regs ≠ none →
          k'.g_umm_app_id
            = k.g_umm_app_id.map (fun _ => (k.tcbs (new_head sc tcb k)).app_id))
      ∧ (head_changed sc tcb k = false → k'.g_umm_app_id = k.g_umm_app_id)
      ∧ ∀ t, (k'.tcbs t).app_id = (k.tcbs t).app_id := by
  cases hs : head_changed sc tcb k with
  | false =>
    refine ⟨_, up_unblock_task_no_switch cfg sc tcb k h hs, ?_, ?_, ?_⟩
    · intro hf
      cases hf
    · intro _
      rfl
    · intro t
      exact tcbs_after_app_id cfg tcb t k.tcbs
  | true =>
    cases hc : k.current_regs with
    | none =>
      refine ⟨_, up_unblock_task_thread cfg sc tcb k h hs hc, ?_, ?_, ?_⟩
      · intro _ hf
        exact absurd rfl hf
      · intro hf
        cases hf
      · intro t
        exact tcbs_after_app_id cfg tcb t k.tcbs
    | some snapshot =>
      refine ⟨_, up_unblock_task_irq cfg sc tcb k snapshot h hs hc, ?_, ?_, ?_⟩
      · intro _ _
        cases hg : k.g_umm_app_id <;> simp [after_irq_switch, hcb, hg]
      · intro hf
        cases hf
      · intro t
        by_cases hmon : cfg.CONFIG_TASK_MONITOR = true
        · by_cases ht : t = new_head sc tcb k
          · subst ht
            simp [after_irq_switch, hmon, tcbs_after_app_id]
          · simp [after_irq_switch, hmon, Function.update_noteq ht, tcbs_after_app_id]
        · simp [after_irq_switch, hmon, tcbs_after_app_id]

/-- C9 at a concrete input: the handler interrupted task 1 (application 101)
and unblocks task 4 (application 104); the word ends up holding 104, neither
101 nor the identifier of any other task. -/
theorem C9_app_id_store_witness :
    in_blocked_range demo_cfg list_sched 4 demo_irq ∧
    demo_irq.g_umm_app_id = some 101 ∧
    (demo_irq.tcbs (old_task list_sched demo_irq)).app_id = 101 ∧
    ∃ k', up_unblock_task demo_cfg list_sched 4 demo_irq = .ok k'
      ∧ k'.g_umm_app_id = some 104 := by
  obtain ⟨k', h1, h2, _, _⟩ := C9_app_id_store demo_cfg list_sched 4 demo_irq (by decide) rfl
  exact ⟨by decide, rfl, by decide, k', h1, h2 (by decide) (by decide)⟩

/-- C5 fails as stated, at two inputs with an APPLICATION head and a changed
head of the ready-to-run list.  (A) Outside a handler, with every protection
option configured and 8 regions, unblocking task 4 makes no
`up_mpu_set_register` call on an `mpu_regs` entry.  (B) Inside a handler, in
a build with `CONFIG_ARMV7M_MPU` but without `CONFIG_APP_BINARY_SEPARATION`,
unblocking task 4 makes no such call either (the loop of lines 163-165 is
compiled out). -/
theorem C5_counterexample :
    (in_blocked_range demo_cfg list_sched 4 demo_thread ∧
      head_changed list_sched 4 demo_thread = true ∧
      demo_thread.current_regs = none ∧
      ¬ kernel_kind demo_cfg (demo_thread.tcbs (new_head list_sched 4 demo_thread)) ∧
      demo_cfg.MPU_NUM_REGIONS = 8 ∧
      (up_unblock_task demo_cfg list_sched 4 demo_thread).failed = false ∧
      (up_unblock_task demo_cfg list_sched 4 demo_thread).state.trace.filter
          Event.is_region_call = []) ∧
    (demo_cfg_flat.CONFIG_ARMV7M_MPU = true ∧
      demo_cfg_flat.CONFIG_APP_BINARY_SEPARATION = false ∧
      in_blocked_range demo_cfg_flat list_sched 4 demo_irq ∧
      head_changed list_sched 4 demo_irq = true ∧
      demo_irq.current_regs ≠ none ∧
      ¬ kernel_kind demo_cfg_flat (demo_irq.tcbs (new_head list_sched 4 demo_irq)) ∧
      demo_cfg_flat.MPU_NUM_REGIONS = 8 ∧
      (up_unblock_task demo_cfg_flat list_sched 4 demo_irq).failed = false ∧
      (up_unblock_task demo_cfg_flat list_sched 4 demo_irq).state.trace.filter
          Event.is_region_call = []) := by
  decide

/-- Every `up_mpu_set_register` call of `up_unblock_task` is made on the
interrupt-context switch path; on the normal-context path the actions after
the insertion are the optional `save_task_scheduling_status(new)` and one
`up_switchcontext(old, new)`. -/
theorem mpu_calls_only_on_irq_path {S : Type} (cfg : Config) (sc : Sched S)
    (tcb : TaskId) (k : Kernel S) (h : in_blocked_range cfg sc tcb k) :
    ∃ k' evs, up_unblock_task cfg sc tcb k = .ok k' ∧ k'.trace = k.trace ++ evs ∧
      ((∃ e ∈ evs, e.is_mpu = true) →
        head_changed sc tcb k = true ∧ k.current_regs ≠ none) ∧
      (head_changed sc tcb k = true → k.current_regs = none →
        evs = entry_events cfg tcb ++ history_events cfg (new_head sc tcb k)
                ++ [Event.up_switchcontext (.xcp (old_task sc k))
                      (.xcp (new_head sc tcb k))]
        ∧ evs.filter Event.is_mpu = []) := by
  cases hs : head_changed sc tcb k with
  | false =>
    refine ⟨_, entry_events cfg tcb, up_unblock_task_no_switch cfg sc tcb k h hs, rfl, ?_, ?_⟩
    · rintro ⟨e, he, hm⟩
      rw [(entry_events_plain cfg tcb e he).2.1] at hm
      cases hm
    · intro hf
      cases hf
  | true =>
    cases hc : k.current_regs with
    | none =>
      have hnil : (entry_events cfg tcb ++ (history_events cfg (new_head sc tcb k)
          ++ [Event.up_switchcontext (.xcp (old_task sc k))
                (.xcp (new_head sc tcb k))])).filter Event.is_mpu = [] := by
        simp [List.filter_append, filter_entry_events, filter_history_events, Event.is_mpu]
      refine ⟨_, _, up_unblock_task_thread cfg sc tcb k h hs hc, rfl, ?_, ?_⟩
      · rintro ⟨e, he, hm⟩
        have := List.mem_filter.mpr ⟨he, hm⟩
        rw [hnil] at this
        cases this
      · intro _ _
        exact ⟨by simp, hnil⟩
    | some snapshot =>
      refine ⟨_, _, up_unblock_task_irq cfg sc tcb k snapshot h hs hc, rfl, ?_, ?_⟩
      · intro _
        exact ⟨rfl, by simp⟩
      · intro _ hf
        cases hf

end TizenRT
